import Mathlib

/-!
Shallow embedding of the GestureControl repository (src/app.py and
src/hand_tracking.py) and proofs about its specification claims.

The repository is a thin adapter around an external hand-landmark
detector.  We embed:
  * the web handler `process_frame` of src/app.py as a total Lean
    function from a request and an environment of external-library
    oracles (cv2.imdecode, hands.process) to an HTTP response;
  * the Python-level helpers it calls (str.split, base64.b64decode)
    as executable Lean functions modelling their documented semantics;
  * the live capture loop of src/hand_tracking.py as a recursive
    function over a finite trace of camera/keyboard observations.
-/

namespace GestureControl

/-- One detected landmark, a normalized 3D point produced by the external
detector (`landmark.x`, `landmark.y`, `landmark.z` in the source).
Coordinates are modelled as rationals; the web path only copies them. -/
structure Landmark where
  x : Rat
  y : Rat
  z : Rat
deriving DecidableEq, Repr

/-- One detected hand as returned by the detector: `hand_landmarks.landmark`
is its ordered list of landmark points. -/
structure HandLandmarks where
  landmark : List Landmark
deriving DecidableEq, Repr

/-- The detector's return value: `results.multi_hand_landmarks` is `None`
(no hands) or a list of detected hands. -/
structure DetectorResult where
  multi_hand_landmarks : Option (List HandLandmarks)
deriving DecidableEq, Repr

/-- A decoded image (pixel grid); pixels are (blue, green, red) triples in
capture order.  Only the channel reordering ever inspects it. -/
structure Image where
  rows : List (List (Nat × Nat × Nat))
deriving DecidableEq, Repr

/-- cv2.cvtColor(frame, cv2.COLOR_BGR2RGB): deterministic, stateless
reordering of the color channels of every pixel. -/
def cvtColor_BGR2RGB (img : Image) : Image :=
  ⟨img.rows.map (fun row => row.map (fun p => (p.2.2, p.2.1, p.1)))⟩

/-- The configuration passed to mp_hands.Hands(...) in both source files. -/
structure HandsConfig where
  static_image_mode : Bool
  max_num_hands : Nat
  min_detection_confidence : Rat
  min_tracking_confidence : Rat
deriving DecidableEq, Repr

/-- The detector construction of src/app.py lines 13-18. -/
def app_hands_config : HandsConfig :=
  { static_image_mode := false
    max_num_hands := 2
    min_detection_confidence := 7/10
    min_tracking_confidence := 7/10 }

/-- The detector construction of src/hand_tracking.py lines 8-13. -/
def tracking_hands_config : HandsConfig :=
  { static_image_mode := false
    max_num_hands := 2
    min_detection_confidence := 7/10
    min_tracking_confidence := 7/10 }

/-- Python truthiness of `results.multi_hand_landmarks`: `None` and the
empty list are falsy, a non-empty list is truthy. -/
def truthyHands : Option (List HandLandmarks) → Bool
  | none => false
  | some l => !l.isEmpty

/-- Python str.split(",") on a character list: split at every comma,
keeping empty fields (`splitCommaAux cs acc` carries the reversed current
field in `acc`). -/
def splitCommaAux : List Char → List Char → List (List Char)
  | [], acc => [acc.reverse]
  | c :: rest, acc =>
      if c = ',' then acc.reverse :: splitCommaAux rest []
      else splitCommaAux rest (c :: acc)

/-- Python str.split(",") of a string, as a list of character lists. -/
def pySplitComma (s : String) : List (List Char) :=
  splitCommaAux s.data []

/-- The standard base64 alphabet, in index order. -/
def b64alphabet : List Char :=
  "ABCDEFGHIJKLMNOPQRSTUVWXYZabcdefghijklmnopqrstuvwxyz0123456789+/".data

/-- Index of a character in the base64 alphabet, if any. -/
def b64val (c : Char) : Option Nat :=
  b64alphabet.findIdx? (fun d => d == c)

/-- Error text modelling binascii's complaint about padding inside data. -/
def b64_pad_msg : String :=
  "Invalid base64-encoded string: padding character found in data"

/-- Error text modelling binascii's complaint about a data length that is
not a multiple of 4 after discarding non-alphabet characters. -/
def b64_len_msg : String :=
  "Invalid base64-encoded string: number of data characters cannot be 1 more than a multiple of 4"

/-- Decode base64 characters in groups of four, after filtering.
Modelled from Python base64.b64decode / binascii.a2b_base64 with
validate=False: each clean group of four yields three bytes, a trailing
group padded with one or two = signs yields two bytes or one. -/
def b64groups : List Char → Except String (List Nat)
  | [] => Except.ok []
  | a :: b :: c :: d :: rest =>
      match b64val a, b64val b with
      | some va, some vb =>
          if c = '=' ∧ d = '=' then
            match b64groups rest with
            | Except.ok tail => Except.ok ((va * 4 + vb / 16) :: tail)
            | Except.error e => Except.error e
          else if d = '=' then
            match b64val c with
            | some vc =>
                match b64groups rest with
                | Except.ok tail =>
                    Except.ok ([va * 4 + vb / 16, (vb % 16) * 16 + vc / 4] ++ tail)
                | Except.error e => Except.error e
            | none => Except.error b64_pad_msg
          else
            match b64val c, b64val d with
            | some vc, some vd =>
                match b64groups rest with
                | Except.ok tail =>
                    Except.ok ([va * 4 + vb / 16, (vb % 16) * 16 + vc / 4,
                                (vc % 4) * 64 + vd] ++ tail)
                | Except.error e => Except.error e
            | _, _ => Except.error b64_pad_msg
      | _, _ => Except.error b64_pad_msg
  | _ => Except.error b64_len_msg

/-- Python base64.b64decode with validate=False (the call in src/app.py
line 34): characters outside the base64 alphabet that are not padding are
discarded, then the remainder is decoded in groups of four. -/
def b64decode_py (cs : List Char) : Except String (List Nat) :=
  b64groups (cs.filter (fun c => (b64val c).isSome || c == '='))

/-- The record shaped by the inner loop of src/app.py lines 51-55: the
Python dict with keys x, y, z built from one landmark. -/
structure LmRecord where
  x : Rat
  y : Rat
  z : Rat
deriving DecidableEq, Repr

/-- The JSON body returned by the handler: either the success shape of
src/app.py lines 59-63 or the failure shape of lines 66-69. -/
inductive RespBody
  | success (landmarks : List (List LmRecord)) (hand_count : Nat)
  | failure (error : String)
deriving DecidableEq, Repr

/-- A Flask response: jsonify(...) returns HTTP status 200 with a JSON
body in both branches of the handler. -/
structure HttpResponse where
  status : Nat
  body : RespBody
deriving DecidableEq, Repr

/-- The incoming HTTP request, reduced to what the handler reads:
request.get_json() either raises (the exception text), or yields None
(non-JSON body with silent=True semantics is not used; None models a JSON
null body), or yields a dict of string keys to string values. -/
structure Request where
  json : Except String (Option (List (String × String)))

/-- The external-library oracles the handler calls: cv2.imdecode, which
returns None rather than raising when the bytes are not a decodable
image, and the shared detector object's process method, which may raise
(the exception text) or return a detection result. -/
structure WebEnv where
  imdecode : List Nat → Option Image
  process : Image → Except String DetectorResult

/-- str(e) for the TypeError raised by data[...] when get_json() gave None. -/
def none_subscript_msg : String := "\x27NoneType\x27 object is not subscriptable"

/-- str(e) for the KeyError raised by data[...] on a dict without the key. -/
def key_error_image_msg : String := "\x27image\x27"

/-- str(e) for the IndexError raised by [1] on a too-short list. -/
def index_error_msg : String := "list index out of range"

/-- str(e) for the cv2.error raised by cv2.cvtColor when its input frame
is None (imdecode failed); modelled text of the OpenCV assertion. -/
def cvtColor_none_msg : String :=
  "OpenCV error: (-215:Assertion failed) !_src.empty() in function cvtColor"

/-- src/app.py lines 29-30: data = request.get_json(); image_data =
data[\x27image\x27], with the exceptions those two lines can raise. -/
def get_image_field (j : Except String (Option (List (String × String)))) :
    Except String String :=
  match j with
  | Except.error e => Except.error e
  | Except.ok none => Except.error none_subscript_msg
  | Except.ok (some d) =>
      match d.lookup "image" with
      | none => Except.error key_error_image_msg
      | some v => Except.ok v

/-- src/app.py line 33: image_data.split(",")[1], raising IndexError when
the string holds no comma. -/
def split_field (image_data : String) : Except String (List Char) :=
  match (pySplitComma image_data).get? 1 with
  | none => Except.error index_error_msg
  | some p => Except.ok p

/-- src/app.py lines 29-34: the byte sequence handed to cv2.imdecode
(np.frombuffer merely reinterprets the bytes). -/
def decoded_bytes (req : Request) : Except String (List Nat) :=
  (get_image_field req.json).bind (fun image_data =>
    (split_field image_data).bind (fun payload =>
      b64decode_py payload))

/-- src/app.py lines 29-40: everything up to and including rgb_frame =
cv2.cvtColor(frame, cv2.COLOR_BGR2RGB).  When imdecode failed, frame is
None and cvtColor raises. -/
def decode_stage (env : WebEnv) (req : Request) : Except String Image :=
  (decoded_bytes req).bind (fun image_bytes =>
    match env.imdecode image_bytes with
    | none => Except.error cvtColor_none_msg
    | some frame => Except.ok (cvtColor_BGR2RGB frame))

/-- The nested list built by the for-loops of src/app.py lines 49-57:
one list of x/y/z records per hand, in detector order. -/
def shape_landmarks (hls : List HandLandmarks) : List (List LmRecord) :=
  hls.map (fun hand_landmarks =>
    hand_landmarks.landmark.map (fun landmark =>
      { x := landmark.x, y := landmark.y, z := landmark.z }))

/-- The body of the try block of src/app.py lines 28-57: the pipeline up
to landmarks_data, propagating any exception as Except.error. -/
def pipeline (env : WebEnv) (req : Request) :
    Except String (List (List LmRecord)) :=
  (decode_stage env req).bind (fun rgb_frame =>
    (env.process rgb_frame).map (fun results =>
      if truthyHands results.multi_hand_landmarks then
        shape_landmarks (results.multi_hand_landmarks.getD [])
      else []))

/-- The whole handler of src/app.py lines 24-69: on success jsonify with
success, landmarks and hand_count = len(landmarks_data); on any exception
jsonify with success=False and error=str(e).  Both give HTTP 200. -/
def process_frame (env : WebEnv) (req : Request) : HttpResponse :=
  match pipeline env req with
  | Except.ok landmarks_data =>
      ⟨200, RespBody.success landmarks_data landmarks_data.length⟩
  | Except.error e => ⟨200, RespBody.failure e⟩

/-- Whether a character list starts with the five characters data: of a
data-URL scheme. -/
def startsDataColon : List Char → Bool
  | 'd' :: 'a' :: 't' :: 'a' :: ':' :: _ => true
  | _ => false

/-- Spec-side reading of claim C5, from its words, for comparison with
`decoded_bytes`: the portion of the incoming image string following its
data-URL prefix.  A data-URL prefix runs up to and including the first
comma (RFC 2397: data:[mediatype][;base64],data); a string without such
a prefix is its own remainder. -/
def dataUrlRemainder (s : String) : List Char :=
  if startsDataColon s.data ∧ s.data.contains ',' then
    (s.data.dropWhile (fun c => c != ',')).drop 1
  else s.data

/-- What the outside world presents to one iteration of the live loop of
src/hand_tracking.py: the value of cap.isOpened() at the loop head, the
success flag and frame of cap.read(), the detector result hands.process
would return for that frame, and the cv2.waitKey(1) return value. -/
structure CamStep where
  isOpened : Bool
  readOk : Bool
  frame : Image
  detection : DetectorResult
  key : Int
deriving DecidableEq, Repr

/-- The observable actions of the live-path process, in program order. -/
inductive LiveEvent
  | printEmptyFrame
  | detect (rgb : Image)
  | draw (hand : HandLandmarks)
  | imshow (frame : Image)
  | releaseCam
  | destroyWindows
deriving DecidableEq, Repr

/-- How the while loop of src/hand_tracking.py ended. -/
inductive LoopExit
  | cameraClosed
  | escPressed
  | outOfTrace
deriving DecidableEq, Repr

/-- The while loop of src/hand_tracking.py lines 18-41 over a finite
trace of world observations: at each head, test cap.isOpened(); on a
failed read print and continue; otherwise convert, detect, draw every
hand when the result is truthy, display, and break when
cv2.waitKey(1) & 0xFF == 27.  An exhausted trace means the loop is still
running (`LoopExit.outOfTrace`). -/
def live_iterations : List CamStep → List LiveEvent × LoopExit
  | [] => ([], LoopExit.outOfTrace)
  | s :: rest =>
      if s.isOpened = false then ([], LoopExit.cameraClosed)
      else if s.readOk = false then
        let r := live_iterations rest
        (LiveEvent.printEmptyFrame :: r.1, r.2)
      else
        let evs :=
          LiveEvent.detect (cvtColor_BGR2RGB s.frame) ::
            (if truthyHands s.detection.multi_hand_landmarks then
              (s.detection.multi_hand_landmarks.getD []).map LiveEvent.draw
            else []) ++ [LiveEvent.imshow s.frame]
        if s.key % 256 = 27 then (evs, LoopExit.escPressed)
        else
          let r := live_iterations rest
          (evs ++ r.1, r.2)

/-- The whole live-path program, src/hand_tracking.py lines 16-44: run
the loop, then — once the loop has exited — cap.release() and
cv2.destroyAllWindows().  When the trace runs out the loop has not
exited, so the cleanup has not happened yet. -/
def hand_tracking_main (trace : List CamStep) : List LiveEvent × LoopExit :=
  let r := live_iterations trace
  match r.2 with
  | LoopExit.outOfTrace => r
  | _ => (r.1 ++ [LiveEvent.releaseCam, LiveEvent.destroyWindows], r.2)

/-- The list of detected hands: `results.multi_hand_landmarks or []`. -/
def detected_hands (res : DetectorResult) : List HandLandmarks :=
  res.multi_hand_landmarks.getD []

/-- A concrete 1x1 image used to instantiate theorems. -/
def sampleImage : Image := ⟨[[(1, 2, 3)]]⟩

/-- A concrete detected hand with 21 landmarks. -/
def sampleHand : HandLandmarks := ⟨List.replicate 21 ⟨1, 2, 3⟩⟩

/-- A concrete oracle environment: imdecode always succeeds with the
sample image, the detector always reports the one sample hand. -/
def sampleEnv : WebEnv :=
  ⟨fun _ => some sampleImage, fun _ => Except.ok ⟨some [sampleHand]⟩⟩

/-- A concrete well-formed request carrying a base64 data URL. -/
def sampleReq : Request :=
  ⟨Except.ok (some [("image", "data:image/jpeg;base64,QUFB")])⟩

section Lemmas

variable {env : WebEnv} {req : Request}

/-- Every error text produced inside the base64 decoder model is one of
its two fixed messages. -/
theorem b64groups_error_msg : ∀ (cs : List Char) (e : String),
    b64groups cs = Except.error e → e = b64_pad_msg ∨ e = b64_len_msg := by
  intro cs
  induction cs using b64groups.induct <;> intro e h <;> simp_all [b64groups]

/-- The conditional of src/app.py line 48 is immaterial to the final
value: when multi_hand_landmarks is falsy the shaped list is empty
anyway. -/
theorem landmarks_data_eq_shape (o : Option (List HandLandmarks)) :
    (if truthyHands o then shape_landmarks (o.getD []) else []) =
      shape_landmarks (o.getD []) := by
  cases o with
  | none => simp [truthyHands, shape_landmarks]
  | some l => cases l <;> simp [truthyHands, shape_landmarks]

/-- Forward computation of the pipeline from successful stages. -/
theorem pipeline_ok_of {rgb : Image} {res : DetectorResult}
    (h1 : decode_stage env req = Except.ok rgb)
    (h2 : env.process rgb = Except.ok res) :
    pipeline env req = Except.ok (shape_landmarks (detected_hands res)) := by
  simp [pipeline, h1, Except.bind, h2, Except.map, landmarks_data_eq_shape,
    detected_hands]

/-- Inversion: a successful pipeline run factors through a decoded frame
and a detector result whose hands it shaped. -/
theorem pipeline_ok_inv {ld : List (List LmRecord)}
    (h : pipeline env req = Except.ok ld) :
    ∃ rgb res, decode_stage env req = Except.ok rgb ∧
      env.process rgb = Except.ok res ∧
      ld = shape_landmarks (detected_hands res) := by
  unfold pipeline at h
  cases hd : decode_stage env req with
  | error e => rw [hd] at h; simp only [Except.bind] at h; exact Except.noConfusion h
  | ok rgb =>
      rw [hd] at h
      simp only [Except.bind] at h
      cases hp : env.process rgb with
      | error e =>
          rw [hp] at h; simp only [Except.map] at h
          exact Except.noConfusion h
      | ok res =>
          rw [hp] at h
          simp only [Except.map] at h
          injection h with h
          refine ⟨rgb, res, rfl, hp, ?_⟩
          rw [← h]
          simpa [detected_hands] using
            landmarks_data_eq_shape res.multi_hand_landmarks

/-- Inversion of a success response: it comes from a successful pipeline
and its hand_count is the length of its landmarks list. -/
theorem success_inv {ld : List (List LmRecord)} {n : Nat}
    (h : process_frame env req = ⟨200, RespBody.success ld n⟩) :
    pipeline env req = Except.ok ld ∧ n = ld.length := by
  unfold process_frame at h
  cases hp : pipeline env req with
  | error e => rw [hp] at h; simp at h
  | ok l =>
      rw [hp] at h
      simp at h
      obtain ⟨h1, h2⟩ := h
      subst h1
      exact ⟨rfl, h2.symm⟩

/-- Errors of the get_json and dict-access steps. -/
theorem get_image_field_error_cases (j : Except String (Option (List (String × String))))
    (e : String) (h : get_image_field j = Except.error e) :
    j = Except.error e ∨ e = none_subscript_msg ∨ e = key_error_image_msg := by
  unfold get_image_field at h
  split at h
  · injection h with h; subst h; exact Or.inl rfl
  · injection h with h; exact Or.inr (Or.inl h.symm)
  · split at h
    · injection h with h; exact Or.inr (Or.inr h.symm)
    · exact Except.noConfusion h

/-- The only error of the split-and-index step is the IndexError text. -/
theorem split_field_error_cases (v : String) (e : String)
    (h : split_field v = Except.error e) : e = index_error_msg := by
  unfold split_field at h
  split at h
  · injection h with h; exact h.symm
  · exact Except.noConfusion h

/-- Every error text `decoded_bytes` can produce. -/
theorem decoded_bytes_error_cases (req : Request) (e : String)
    (h : decoded_bytes req = Except.error e) :
    req.json = Except.error e ∨ e = none_subscript_msg ∨
      e = key_error_image_msg ∨ e = index_error_msg ∨
      e = b64_pad_msg ∨ e = b64_len_msg := by
  unfold decoded_bytes at h
  cases hg : get_image_field req.json with
  | error e1 =>
      rw [hg] at h
      simp only [Except.bind] at h
      injection h with h
      subst h
      rcases get_image_field_error_cases _ _ hg with h1 | h1 | h1
      · exact Or.inl h1
      · exact Or.inr (Or.inl h1)
      · exact Or.inr (Or.inr (Or.inl h1))
  | ok v =>
      rw [hg] at h
      simp only [Except.bind] at h
      cases hs : split_field v with
      | error e1 =>
          rw [hs] at h
          simp only [Except.bind] at h
          injection h with h
          subst h
          exact Or.inr (Or.inr (Or.inr (Or.inl (split_field_error_cases _ _ hs))))
      | ok payload =>
          rw [hs] at h
          simp only [Except.bind] at h
          unfold b64decode_py at h
          rcases b64groups_error_msg _ _ h with h1 | h1
          · exact Or.inr (Or.inr (Or.inr (Or.inr (Or.inl h1))))
          · exact Or.inr (Or.inr (Or.inr (Or.inr (Or.inr h1))))

/-- Every error text the decode stage can produce. -/
theorem decode_stage_error_cases (e : String)
    (h : decode_stage env req = Except.error e) :
    decoded_bytes req = Except.error e ∨ e = cvtColor_none_msg := by
  unfold decode_stage at h
  cases hb : decoded_bytes req with
  | error e1 =>
      rw [hb] at h
      simp only [Except.bind] at h
      injection h with h
      subst h
      exact Or.inl rfl
  | ok bs =>
      rw [hb] at h
      simp only [Except.bind] at h
      split at h
      · injection h with h; exact Or.inr h.symm
      · exact Except.noConfusion h

/-- Every error text the pipeline can produce: the get_json exception,
one of the fixed Python/OpenCV messages of the intermediate steps, or an
exception text of the external detector. -/
theorem pipeline_error_cases (e : String)
    (h : pipeline env req = Except.error e) :
    req.json = Except.error e ∨ e = none_subscript_msg ∨
      e = key_error_image_msg ∨ e = index_error_msg ∨ e = b64_pad_msg ∨
      e = b64_len_msg ∨ e = cvtColor_none_msg ∨
      ∃ img, env.process img = Except.error e := by
  unfold pipeline at h
  cases hd : decode_stage env req with
  | ok rgb =>
      rw [hd] at h
      simp only [Except.bind] at h
      cases hp : env.process rgb with
      | ok res =>
          rw [hp] at h; simp only [Except.map] at h
          exact Except.noConfusion h
      | error e1 =>
          rw [hp] at h
          simp only [Except.map] at h
          injection h with h
          subst h
          exact Or.inr (Or.inr (Or.inr (Or.inr (Or.inr (Or.inr (Or.inr
            ⟨rgb, hp⟩))))))
  | error e1 =>
      rw [hd] at h
      simp only [Except.bind] at h
      injection h with h
      subst h
      rcases decode_stage_error_cases _ hd with h1 | h1
      · rcases decoded_bytes_error_cases _ _ h1 with h2 | h2 | h2 | h2 | h2 | h2
        · exact Or.inl h2
        · exact Or.inr (Or.inl h2)
        · exact Or.inr (Or.inr (Or.inl h2))
        · exact Or.inr (Or.inr (Or.inr (Or.inl h2)))
        · exact Or.inr (Or.inr (Or.inr (Or.inr (Or.inl h2))))
        · exact Or.inr (Or.inr (Or.inr (Or.inr (Or.inr (Or.inl h2)))))
      · exact Or.inr (Or.inr (Or.inr (Or.inr (Or.inr (Or.inr (Or.inl h1))))))

end Lemmas

section LiveLemmas

/-- Cleanup does not change how the loop exited. -/
theorem live_exit_eq (trace : List CamStep) :
    (hand_tracking_main trace).2 = (live_iterations trace).2 := by
  unfold hand_tracking_main
  cases h : (live_iterations trace).2 <;> simp [h]

/-- The loop exit is one of the three modelled outcomes. -/
theorem live_exit_values (trace : List CamStep) :
    (live_iterations trace).2 = LoopExit.escPressed ∨
    (live_iterations trace).2 = LoopExit.cameraClosed ∨
    (live_iterations trace).2 = LoopExit.outOfTrace := by
  induction trace with
  | nil => simp [live_iterations]
  | cons s rest ih =>
      by_cases h1 : s.isOpened = false
      · simp [live_iterations, h1]
      · by_cases h2 : s.readOk = false
        · simpa [live_iterations, h1, h2] using ih
        · by_cases h3 : s.key % 256 = 27
          · simp [live_iterations, h1, h2, h3]
          · simpa [live_iterations, h1, h2, h3] using ih

/-- An ESC exit can only come from an iteration that actually read a
frame while the camera was open and saw key 27. -/
theorem live_exit_esc (trace : List CamStep)
    (h : (live_iterations trace).2 = LoopExit.escPressed) :
    ∃ s ∈ trace, s.isOpened = true ∧ s.readOk = true ∧ s.key % 256 = 27 := by
  induction trace with
  | nil => simp [live_iterations] at h
  | cons s rest ih =>
      by_cases h1 : s.isOpened = false
      · simp [live_iterations, h1] at h
      · by_cases h2 : s.readOk = false
        · simp only [live_iterations, h1, if_false, h2, if_true] at h
          obtain ⟨t, ht, ht2⟩ := ih (by simpa using h)
          exact ⟨t, List.mem_cons_of_mem _ ht, ht2⟩
        · by_cases h3 : s.key % 256 = 27
          · refine ⟨s, List.mem_cons_self _ _, ?_, ?_, h3⟩
            · simpa using h1
            · simpa using h2
          · simp only [live_iterations, h1, if_false, h2, h3, if_true] at h
            obtain ⟨t, ht, ht2⟩ := ih (by simpa [h1, h2, h3] using h)
            exact ⟨t, List.mem_cons_of_mem _ ht, ht2⟩

/-- A camera-closed exit can only come from an iteration that found the
capture handle no longer opened. -/
theorem live_exit_closed (trace : List CamStep)
    (h : (live_iterations trace).2 = LoopExit.cameraClosed) :
    ∃ s ∈ trace, s.isOpened = false := by
  induction trace with
  | nil => simp [live_iterations] at h
  | cons s rest ih =>
      by_cases h1 : s.isOpened = false
      · exact ⟨s, List.mem_cons_self _ _, h1⟩
      · by_cases h2 : s.readOk = false
        · obtain ⟨t, ht, ht2⟩ := ih (by simpa [live_iterations, h1, h2] using h)
          exact ⟨t, List.mem_cons_of_mem _ ht, ht2⟩
        · by_cases h3 : s.key % 256 = 27
          · simp [live_iterations, h1, h2, h3] at h
          · obtain ⟨t, ht, ht2⟩ := ih (by simpa [live_iterations, h1, h2, h3] using h)
            exact ⟨t, List.mem_cons_of_mem _ ht, ht2⟩

/-- When some step of the trace closes the camera or reads a frame with
ESC pending, the loop does not run off the end of the trace: it exits. -/
theorem live_exit_reached (trace : List CamStep)
    (hex : ∃ s ∈ trace, s.isOpened = false ∨
      (s.readOk = true ∧ s.key % 256 = 27)) :
    (live_iterations trace).2 ≠ LoopExit.outOfTrace := by
  induction trace with
  | nil => obtain ⟨t, ht, _⟩ := hex; simp at ht
  | cons s rest ih =>
      obtain ⟨t, ht, hcond⟩ := hex
      by_cases h1 : s.isOpened = false
      · simp [live_iterations, h1]
      · by_cases h2 : s.readOk = false
        · rcases List.mem_cons.mp ht with rfl | htr
          · rcases hcond with hc | hc
            · exact absurd hc h1
            · exact absurd hc.1 (by simp [h2])
          · simpa [live_iterations, h1, h2] using ih ⟨t, htr, hcond⟩
        · by_cases h3 : s.key % 256 = 27
          · simp [live_iterations, h1, h2, h3]
          · rcases List.mem_cons.mp ht with rfl | htr
            · rcases hcond with hc | hc
              · exact absurd hc h1
              · exact absurd hc.2 h3
            · simpa [live_iterations, h1, h2, h3] using ih ⟨t, htr, hcond⟩

end LiveLemmas

/-- C1: for every POST /process_frame request whose processing raises an
exception anywhere in the pipeline, the handler answers with HTTP 200
and the JSON body success=false, error = the exception's text, and that
text is non-empty (granted that the two external exception sources,
request.get_json and the detector, raise with non-empty texts; every
internal exception text is a fixed non-empty message).  No exception
propagates: process_frame is a total function of its inputs. -/
theorem C1_exception_catchall (env : WebEnv) (req : Request)
    (hjson : ∀ m, req.json = Except.error m → m ≠ "")
    (hproc : ∀ img m, env.process img = Except.error m → m ≠ "")
    (e : String) (h : pipeline env req = Except.error e) :
    process_frame env req = ⟨200, RespBody.failure e⟩ ∧ e ≠ "" := by
  refine ⟨by simp [process_frame, h], ?_⟩
  rcases pipeline_error_cases e h with h1 | h1 | h1 | h1 | h1 | h1 | h1 | ⟨img, h1⟩
  · exact hjson e h1
  · subst h1; decide
  · subst h1; decide
  · subst h1; decide
  · subst h1; decide
  · subst h1; decide
  · subst h1; decide
  · exact hproc img e h1

/-- C1 witness: a request whose JSON body lacks the image key raises a
KeyError; the concrete response is 200 with the failure body. -/
theorem C1_exception_catchall_witness :
    process_frame ⟨fun _ => none, fun _ => Except.ok ⟨none⟩⟩
        ⟨Except.ok (some [])⟩ =
      ⟨200, RespBody.failure key_error_image_msg⟩ ∧
    key_error_image_msg ≠ "" :=
  C1_exception_catchall _ _ (fun _ hm => by simp at hm)
    (fun _ _ hm => by simp at hm) _ rfl

/-- C2: in every success response of POST /process_frame, the hand_count
field equals the length of the landmarks list. -/
theorem C2_hand_count_eq_length (env : WebEnv) (req : Request)
    (ld : List (List LmRecord)) (n : Nat)
    (h : process_frame env req = ⟨200, RespBody.success ld n⟩) :
    n = ld.length :=
  (success_inv h).2

/-- C2 witness: the sample environment and request yield one detected
hand with hand_count 1. -/
theorem C2_hand_count_eq_length_witness :
    process_frame sampleEnv sampleReq =
      ⟨200, RespBody.success (shape_landmarks [sampleHand]) 1⟩ ∧
    (1 : Nat) = (shape_landmarks [sampleHand]).length :=
  ⟨rfl, C2_hand_count_eq_length sampleEnv sampleReq _ _ rfl⟩

/-- C3: when the external detector yields exactly 21 landmarks per hand,
every entry of the landmarks list in a success response is a list of
exactly 21 records (each record carrying x, y and z values by
construction of LmRecord). -/
theorem C3_entries_have_21_records (env : WebEnv) (req : Request)
    (hdet : ∀ img res, env.process img = Except.ok res →
      ∀ hand ∈ detected_hands res, hand.landmark.length = 21)
    (ld : List (List LmRecord)) (n : Nat)
    (h : process_frame env req = ⟨200, RespBody.success ld n⟩) :
    ∀ entry ∈ ld, entry.length = 21 := by
  obtain ⟨hp, -⟩ := success_inv h
  obtain ⟨rgb, res, -, hpr, hld⟩ := pipeline_ok_inv hp
  subst hld
  intro entry hentry
  unfold shape_landmarks at hentry
  obtain ⟨hand, hhand, rfl⟩ := List.mem_map.mp hentry
  simp only [List.length_map]
  exact hdet rgb res hpr hand hhand

/-- C3 witness: with the sample detector (one hand of 21 landmarks) the
success response's single entry has 21 records. -/
theorem C3_entries_have_21_records_witness :
    process_frame sampleEnv sampleReq =
      ⟨200, RespBody.success (shape_landmarks [sampleHand]) 1⟩ ∧
    ∀ entry ∈ shape_landmarks [sampleHand], entry.length = 21 :=
  ⟨rfl, C3_entries_have_21_records sampleEnv sampleReq
    (by
      intro img res hres hand hh
      simp only [sampleEnv] at hres
      injection hres with hres
      subst hres
      simp only [detected_hands, Option.getD, List.mem_singleton] at hh
      subst hh
      simp [sampleHand])
    _ _ rfl⟩

/-- C4: the result shaping of the web path is an order- and
value-preserving flattening: the response's landmarks list is exactly the
detector's hand list mapped, hand by hand and landmark by landmark, to
x/y/z records with unmodified coordinates. -/
theorem C4_flattening_preserves (env : WebEnv) (req : Request)
    (rgb : Image) (res : DetectorResult)
    (h1 : decode_stage env req = Except.ok rgb)
    (h2 : env.process rgb = Except.ok res) :
    process_frame env req =
      ⟨200, RespBody.success (shape_landmarks (detected_hands res))
        (shape_landmarks (detected_hands res)).length⟩ ∧
    (∀ i, (shape_landmarks (detected_hands res)).get? i =
      ((detected_hands res).get? i).map
        (fun hand => hand.landmark.map
          (fun lm => ⟨lm.x, lm.y, lm.z⟩))) ∧
    (∀ hand : HandLandmarks, ∀ j,
      (hand.landmark.map (fun lm => (⟨lm.x, lm.y, lm.z⟩ : LmRecord))).get? j =
        (hand.landmark.get? j).map (fun lm => ⟨lm.x, lm.y, lm.z⟩)) := by
  refine ⟨by simp [process_frame, pipeline_ok_of h1 h2], ?_, ?_⟩
  · intro i
    unfold shape_landmarks
    exact List.get?_map _ _ _
  · intro hand j
    exact List.get?_map _ _ _

/-- C4 witness: instantiated on the sample environment, request and
detector result. -/
theorem C4_flattening_preserves_witness :
    process_frame sampleEnv sampleReq =
      ⟨200, RespBody.success (shape_landmarks (detected_hands ⟨some [sampleHand]⟩))
        (shape_landmarks (detected_hands ⟨some [sampleHand]⟩)).length⟩ ∧
    (∀ i, (shape_landmarks (detected_hands ⟨some [sampleHand]⟩)).get? i =
      ((detected_hands (⟨some [sampleHand]⟩ : DetectorResult)).get? i).map
        (fun hand => hand.landmark.map
          (fun lm => ⟨lm.x, lm.y, lm.z⟩))) ∧
    (∀ hand : HandLandmarks, ∀ j,
      (hand.landmark.map (fun lm => (⟨lm.x, lm.y, lm.z⟩ : LmRecord))).get? j =
        (hand.landmark.get? j).map (fun lm => ⟨lm.x, lm.y, lm.z⟩)) :=
  C4_flattening_preserves sampleEnv sampleReq
    (cvtColor_BGR2RGB sampleImage) ⟨some [sampleHand]⟩ rfl rfl

/-- C5 counterexample: for the incoming image string
data:image/jpeg;base64,QUFB,QkJC the handler base64-decodes only the
field between the first and second commas (QUFB, three bytes), while the
portion following the data-URL prefix is QUFB,QkJC, whose base64
decoding (commas being discarded by b64decode) is six bytes.  The byte
sequences handed to the image decompressor therefore differ, refuting
the claim as stated at this concrete input. -/
theorem C5_counterexample :
    decoded_bytes ⟨Except.ok (some
        [("image", "data:image/jpeg;base64,QUFB,QkJC")])⟩ =
      Except.ok [65, 65, 65] ∧
    b64decode_py (dataUrlRemainder "data:image/jpeg;base64,QUFB,QkJC") =
      Except.ok [65, 65, 65, 66, 66, 66] ∧
    decoded_bytes ⟨Except.ok (some
        [("image", "data:image/jpeg;base64,QUFB,QkJC")])⟩ ≠
      b64decode_py (dataUrlRemainder "data:image/jpeg;base64,QUFB,QkJC") := by
  refine ⟨rfl, rfl, fun hcontra => ?_⟩
  have h1 : (Except.ok [65, 65, 65] : Except String (List Nat)) =
      Except.ok [65, 65, 65, 66, 66, 66] := hcontra
  simp at h1

/-- C5 amended: the byte sequence handed to cv2.imdecode is the base64
decoding of the second comma-separated field of the incoming image
string — the text between the first and second commas, which coincides
with the portion following the data-URL prefix only when that portion
contains no further comma; a string with fewer than two comma-separated
fields raises an IndexError instead of reaching the decoder. -/
theorem C5_amended_second_field (s : String) :
    decoded_bytes ⟨Except.ok (some [("image", s)])⟩ =
      match (pySplitComma s).get? 1 with
      | some payload => b64decode_py payload
      | none => Except.error index_error_msg := by
  have hg : get_image_field (Except.ok (some [("image", s)])) =
      Except.ok s := rfl
  unfold decoded_bytes
  rw [hg]
  simp only [Except.bind]
  cases hs : (pySplitComma s).get? 1 with
  | none =>
      rw [List.get?_eq_getElem?] at hs
      simp [split_field, hs, Except.bind]
  | some payload =>
      rw [List.get?_eq_getElem?] at hs
      simp [split_field, hs, Except.bind]

/-- C6: when the detector finds no hand (multi_hand_landmarks is None or
the empty list), the response is success with hand_count 0 and an empty
landmarks list. -/
theorem C6_no_hands_empty_response (env : WebEnv) (req : Request)
    (rgb : Image) (res : DetectorResult)
    (h1 : decode_stage env req = Except.ok rgb)
    (h2 : env.process rgb = Except.ok res)
    (hempty : res.multi_hand_landmarks = none ∨
      res.multi_hand_landmarks = some []) :
    process_frame env req = ⟨200, RespBody.success [] 0⟩ := by
  have hp := pipeline_ok_of h1 h2
  rcases hempty with he | he <;>
    simp [process_frame, hp, detected_hands, he, shape_landmarks]

/-- C6 witness: a detector that reports None yields the empty success
response on the sample request. -/
theorem C6_no_hands_empty_response_witness :
    process_frame ⟨fun _ => some sampleImage, fun _ => Except.ok ⟨none⟩⟩
        sampleReq = ⟨200, RespBody.success [] 0⟩ :=
  C6_no_hands_empty_response _ sampleReq (cvtColor_BGR2RGB sampleImage)
    ⟨none⟩ rfl rfl (Or.inl rfl)

/-- C7: both entry points construct the detector with max hands 2 and
detection/tracking confidences 0.7; granted that the detector honors its
configured maximum, every success response of POST /process_frame
reports at most 2 hands. -/
theorem C7_at_most_two_hands (env : WebEnv) (req : Request)
    (hmax : ∀ img res, env.process img = Except.ok res →
      (detected_hands res).length ≤ app_hands_config.max_num_hands) :
    (app_hands_config.max_num_hands = 2 ∧
     tracking_hands_config.max_num_hands = 2 ∧
     app_hands_config.min_detection_confidence = 7/10 ∧
     app_hands_config.min_tracking_confidence = 7/10 ∧
     tracking_hands_config.min_detection_confidence = 7/10 ∧
     tracking_hands_config.min_tracking_confidence = 7/10) ∧
    ∀ ld n, process_frame env req = ⟨200, RespBody.success ld n⟩ →
      n ≤ 2 ∧ ld.length ≤ 2 := by
  refine ⟨⟨rfl, rfl, rfl, rfl, rfl, rfl⟩, ?_⟩
  intro ld n h
  obtain ⟨hp, hn⟩ := success_inv h
  obtain ⟨rgb, res, -, hpr, hld⟩ := pipeline_ok_inv hp
  have hlen : ld.length ≤ 2 := by
    rw [hld]
    unfold shape_landmarks
    rw [List.length_map]
    exact hmax rgb res hpr
  exact ⟨by rw [hn]; exact hlen, hlen⟩

/-- C7 witness: the sample detector reports one hand, within the
configured maximum, and the sample response's count is below 2. -/
theorem C7_at_most_two_hands_witness :
    (app_hands_config.max_num_hands = 2 ∧
     tracking_hands_config.max_num_hands = 2 ∧
     app_hands_config.min_detection_confidence = 7/10 ∧
     app_hands_config.min_tracking_confidence = 7/10 ∧
     tracking_hands_config.min_detection_confidence = 7/10 ∧
     tracking_hands_config.min_tracking_confidence = 7/10) ∧
    ∀ ld n, process_frame sampleEnv sampleReq =
        ⟨200, RespBody.success ld n⟩ →
      n ≤ 2 ∧ ld.length ≤ 2 :=
  C7_at_most_two_hands sampleEnv sampleReq
    (by
      intro img res hres
      simp only [sampleEnv] at hres
      injection hres with hres
      subst hres
      decide)

/-- A one-step trace in which the loop reads a frame and sees ESC. -/
def sampleTraceEsc : List CamStep :=
  [⟨true, true, sampleImage, ⟨none⟩, 27⟩]

/-- C8: the live-path main loop terminates on ESC keypress or camera
failure (cap.isOpened() turning false), and only then: whenever the
trace holds a closed-camera step or a successful read with ESC pending,
the loop exits rather than running off the trace; every exit is either
escPressed or cameraClosed (outOfTrace meaning the loop is still
running); an ESC exit stems from a read frame with key 27 while the
camera was open, and a camera exit stems from cap.isOpened() = false. -/
theorem C8_loop_termination (trace : List CamStep)
    (evs : List LiveEvent) (ex : LoopExit)
    (h : hand_tracking_main trace = (evs, ex)) :
    ((∃ s ∈ trace, s.isOpened = false ∨
        (s.readOk = true ∧ s.key % 256 = 27)) → ex ≠ LoopExit.outOfTrace) ∧
    (ex = LoopExit.escPressed ∨ ex = LoopExit.cameraClosed ∨
      ex = LoopExit.outOfTrace) ∧
    (ex = LoopExit.escPressed →
      ∃ s ∈ trace, s.isOpened = true ∧ s.readOk = true ∧
        s.key % 256 = 27) ∧
    (ex = LoopExit.cameraClosed → ∃ s ∈ trace, s.isOpened = false) := by
  have hex : ex = (live_iterations trace).2 := by
    rw [← live_exit_eq, h]
  subst hex
  exact ⟨fun hc => live_exit_reached trace hc, live_exit_values trace,
    fun hh => live_exit_esc trace hh, fun hh => live_exit_closed trace hh⟩

/-- C8 witness: a trace whose single step reads a frame with ESC pending
terminates the loop with the escPressed exit. -/
theorem C8_loop_termination_witness :
    hand_tracking_main sampleTraceEsc =
      ([LiveEvent.detect (cvtColor_BGR2RGB sampleImage),
        LiveEvent.imshow sampleImage, LiveEvent.releaseCam,
        LiveEvent.destroyWindows], LoopExit.escPressed) ∧
    (∃ s ∈ sampleTraceEsc, s.isOpened = true ∧ s.readOk = true ∧
      s.key % 256 = 27) :=
  ⟨rfl, (C8_loop_termination sampleTraceEsc
    [LiveEvent.detect (cvtColor_BGR2RGB sampleImage),
      LiveEvent.imshow sampleImage, LiveEvent.releaseCam,
      LiveEvent.destroyWindows] LoopExit.escPressed rfl).2.2.1 rfl⟩

/-- C9: an unsuccessful camera read with the camera still open prints
the console message and resumes with the next iteration: that iteration
contributes exactly the print event — no detector call, no drawing, no
display — and the rest of the run is what the loop does on the remaining
trace, unchanged. -/
theorem C9_empty_read_resumes (s : CamStep) (rest : List CamStep)
    (hopen : s.isOpened = true) (hread : s.readOk = false) :
    live_iterations (s :: rest) =
      (LiveEvent.printEmptyFrame :: (live_iterations rest).1,
        (live_iterations rest).2) := by
  simp [live_iterations, hopen, hread]

/-- C9 witness: a single failed read leaves the loop running with only
the console message emitted. -/
theorem C9_empty_read_resumes_witness :
    (⟨true, false, sampleImage, ⟨none⟩, 0⟩ : CamStep).isOpened = true ∧
    (⟨true, false, sampleImage, ⟨none⟩, 0⟩ : CamStep).readOk = false ∧
    live_iterations [⟨true, false, sampleImage, ⟨none⟩, 0⟩] =
      ([LiveEvent.printEmptyFrame], LoopExit.outOfTrace) :=
  ⟨rfl, rfl, C9_empty_read_resumes ⟨true, false, sampleImage, ⟨none⟩, 0⟩ []
    rfl rfl⟩

/-- C10: if the capture handle is not opened at the first loop test, the
live-path program performs zero loop iterations — it emits no detector
call and no display — and still exits cleanly: its whole event list is
exactly cap.release() followed by cv2.destroyAllWindows(), with the
cameraClosed exit. -/
theorem C10_closed_capture_clean_exit (s : CamStep) (rest : List CamStep)
    (hclosed : s.isOpened = false) :
    hand_tracking_main (s :: rest) =
      ([LiveEvent.releaseCam, LiveEvent.destroyWindows],
        LoopExit.cameraClosed) := by
  unfold hand_tracking_main
  simp [live_iterations, hclosed]

/-- C10 witness: a concrete never-opened capture produces only the two
cleanup events. -/
theorem C10_closed_capture_clean_exit_witness :
    (⟨false, false, sampleImage, ⟨none⟩, 0⟩ : CamStep).isOpened = false ∧
    hand_tracking_main [⟨false, false, sampleImage, ⟨none⟩, 0⟩] =
      ([LiveEvent.releaseCam, LiveEvent.destroyWindows],
        LoopExit.cameraClosed) :=
  ⟨rfl, C10_closed_capture_clean_exit ⟨false, false, sampleImage, ⟨none⟩, 0⟩
    [] rfl⟩

end GestureControl
